import Mathlib

namespace OmniVibe

/-!
Verification of the OMNI-VIBE Streamlit app (src/main.py).

The script is a single linear page: load the credential from the secret
store (halting with an error if absent), build a fixed model configuration
(model name plus system instruction; no generation parameters are set),
render an upload control and a target-vibe text field (default value
"Industrial Luxury"), and on the button press either warn when no file was
uploaded, or decode the image, compose the prompt by string interpolation,
issue one generation call, and render the response text (or the caught
exception) on the page.

The embedding below makes every effect explicit: the page run returns the
list of rendered outputs together with the list of remote requests issued.
The image decoder (PIL Image.open) and the remote client
(model.generate_content) are parameters, since their behaviour is external
to the repository.
-/

/-- A PIL image object produced by Image.open; we keep only the raw data. -/
structure PILImage where
  data : List Nat
deriving DecidableEq, Repr

/-- One part of a multi-part generation request: text or an image object,
mirroring the list [prompt, img] passed to model.generate_content. -/
inductive Part where
  | text (s : String)
  | image (img : PILImage)
deriving DecidableEq, Repr

/-- Sampling/generation parameters a genai request may carry. The script
never constructs one, so only the shape matters. -/
structure GenerationConfig where
  temperature : Option String
  top_p : Option String
  top_k : Option String
  max_output_tokens : Option Nat
  response_mime_type : Option String
deriving DecidableEq, Repr

/-- The configuration held by genai.GenerativeModel: model name, system
instruction, and the optional generation config (None when the keyword
argument is not supplied, as in src/main.py lines 30-33). -/
structure GenerativeModelConfig where
  model_name : String
  system_instruction : String
  generation_config : Option GenerationConfig
deriving DecidableEq, Repr

/-- A request sent by model.generate_content: the model configuration it
was created with plus the content parts. -/
structure Request where
  config : GenerativeModelConfig
  parts : List Part
deriving DecidableEq, Repr

/-- Everything the page renders: error banners (st.error), warning banners
(st.warning), markdown blocks (st.markdown), and the st.stop halt marker. -/
inductive Output where
  | error (msg : String)
  | warning (msg : String)
  | markdown (body : String)
  | stop
deriving DecidableEq, Repr

/-- The SYSTEM_INSTRUCTION triple-quoted literal of src/main.py lines 18-28,
including its leading and trailing newline. -/
def SYSTEM_INSTRUCTION : String :=
  "\n# ROLE: OMNI-VIBE Autonomous Creative Director\n# TRACK: Marathon Agent & Creative Autopilot\n\nYou are a high-end Autonomous Creative Agent. Your goal is to transform any visual input into a professional brand identity.\n\n## PROCESS:\n1. [SPATIAL ANALYSIS]: Analyze geometry, textures, and lighting.\n2. [THINKING LOG]: Show how you self-corrected your initial design thoughts.\n3. [ACTION]: Provide technical execution logic.\n"

/-- The model built at src/main.py lines 30-33: only model_name and
system_instruction are passed; no generation_config is supplied. -/
def model : GenerativeModelConfig :=
  { model_name := "gemini-3-flash-preview"
    system_instruction := SYSTEM_INSTRUCTION
    generation_config := none }

/-- Default value of the "Target Vibe" text input (src/main.py line 40). -/
def target_vibe_default : String := "Industrial Luxury"

/-- The f-string of src/main.py line 51: pure interpolation of the
target-vibe value between two fixed literals. -/
def composePrompt (target_vibe : String) : String :=
  "Analyze this image. Target Vibe: " ++ target_vibe ++ ". Action: Initial Brand Concept."

/-- The request issued at src/main.py line 53: the module-level model
configuration with contents [prompt, img]. -/
def mkRequest (target_vibe : String) (img : PILImage) : Request :=
  { config := model
    parts := [Part.text (composePrompt target_vibe), Part.image img] }

/-- The button handler (src/main.py lines 42-61). `decode` models
Image.open on the uploaded bytes and `generate` models
model.generate_content returning the response text; either may raise,
and both run inside the same try/except. Returns the rendered outputs
and the list of remote requests issued. -/
def runExecute (decode : List Nat → Except String PILImage)
    (generate : Request → Except String String)
    (uploaded_file : Option (List Nat)) (target_vibe : String) :
    List Output × List Request :=
  match uploaded_file with
  | some bytes =>
    match decode bytes with
    | Except.error e => ([Output.error ("Sistem Error: " ++ e)], [])
    | Except.ok img =>
      match generate (mkRequest target_vibe img) with
      | Except.error e =>
          ([Output.error ("Sistem Error: " ++ e)], [mkRequest target_vibe img])
      | Except.ok t =>
          ([Output.markdown "---", Output.markdown t], [mkRequest target_vibe img])
  | none => ([Output.warning "Silakan unggah gambar terlebih dahulu."], [])

/-- One full page run (src/main.py lines 9-61): startup first reads the
GOOGLE_API_KEY secret and halts with st.error plus st.stop when it is
absent (lines 9-14); otherwise, when the Execute Analysis button was
pressed, the handler runs. -/
def runApp (secret : Option String) (buttonPressed : Bool)
    (uploaded_file : Option (List Nat)) (target_vibe : String)
    (decode : List Nat → Except String PILImage)
    (generate : Request → Except String String) : List Output × List Request :=
  match secret with
  | none =>
      ([Output.error "API Key tidak ditemukan! Masukkan di Secrets Streamlit.",
        Output.stop], [])
  | some _ =>
      match buttonPressed with
      | true => runExecute decode generate uploaded_file target_vibe
      | false => ([], [])

/-- Helper: every request a run ever issues has the module-level model
configuration and parts [composed prompt, image]. -/
lemma runApp_calls_shape (secret : Option String) (buttonPressed : Bool)
    (uploaded_file : Option (List Nat)) (target_vibe : String)
    (decode : List Nat → Except String PILImage)
    (generate : Request → Except String String) :
    ∀ req ∈ (runApp secret buttonPressed uploaded_file target_vibe decode generate).2,
      ∃ img, req = mkRequest target_vibe img := by
  intro req hreq
  unfold runApp runExecute at hreq
  repeat' split at hreq
  all_goals simp_all

/-- A request carries explicit fixed generation parameters exactly when its
model configuration holds a generation config. -/
def hasFixedGenerationParams (r : Request) : Bool :=
  r.config.generation_config.isSome

/-- C1 counterexample: at target-vibe "Industrial Luxury" the prompt the code
composes is not the string the claim asserts; the code interpolates into
"Analyze this image. ... Action: Initial Brand Concept." instead. -/
theorem c1_counterexample :
    composePrompt "Industrial Luxury" ≠
      "Analyze the uploaded file. Target Vibe: Industrial Luxury. Action Triggered: Analyze Vibe" := by
  decide

/-- C1 (amended): at target-vibe "Industrial Luxury" the composed prompt is
exactly "Analyze this image. Target Vibe: Industrial Luxury. Action: Initial
Brand Concept." (the action label is the hard-coded literal), and when the
remote client returns the literal text "OK" the rendered response output is
exactly "OK" (preceded only by the fixed "---" separator the page always
emits). -/
theorem c1_amended_scenario :
    composePrompt "Industrial Luxury" =
      "Analyze this image. Target Vibe: Industrial Luxury. Action: Initial Brand Concept." ∧
    (runApp (some "key") true (some [0, 1]) "Industrial Luxury"
        (fun b => Except.ok (PILImage.mk b)) (fun _ => Except.ok "OK")).1 =
      [Output.markdown "---", Output.markdown "OK"] :=
  ⟨rfl, rfl⟩

/-- C2: whenever the Execute Analysis button is triggered with no uploaded
file, no remote call is issued and the MissingInput warning is the sole
rendered output, for every decoder, client, credential and vibe text. -/
theorem c2_no_file_blocks_call (k vibe : String)
    (decode : List Nat → Except String PILImage)
    (generate : Request → Except String String) :
    runApp (some k) true none vibe decode generate =
      ([Output.warning "Silakan unggah gambar terlebih dahulu."], []) :=
  rfl

/-- C3: when the credential is absent at startup the run halts immediately
with the visible MissingCredential error and the stop marker, and no remote
call is issued, whatever the other inputs are. -/
theorem c3_missing_credential_halts (pressed : Bool) (file : Option (List Nat))
    (vibe : String) (decode : List Nat → Except String PILImage)
    (generate : Request → Except String String) :
    runApp none pressed file vibe decode generate =
      ([Output.error "API Key tidak ditemukan! Masukkan di Secrets Streamlit.",
        Output.stop], []) :=
  rfl

/-- C4: a failure raised by the remote call is caught and rendered as the
visible error "Sistem Error: " followed by the underlying message (so the
rendered error contains that message), no response text is rendered for that
request, and a subsequent attempt with a succeeding client renders its
response normally. -/
theorem c4_remote_failure_handled (k : String) (bytes : List Nat)
    (vibe msg txt : String) (img : PILImage)
    (decode : List Nat → Except String PILImage)
    (generate2 : Request → Except String String)
    (hdec : decode bytes = Except.ok img)
    (hgen2 : generate2 (mkRequest vibe img) = Except.ok txt) :
    (runApp (some k) true (some bytes) vibe decode
        (fun _ => Except.error msg)).1 =
      [Output.error ("Sistem Error: " ++ msg)] ∧
    (∃ p, "Sistem Error: " ++ msg = p ++ msg) ∧
    (∀ t, Output.markdown t ∉ (runApp (some k) true (some bytes) vibe decode
        (fun _ => Except.error msg)).1) ∧
    (runApp (some k) true (some bytes) vibe decode generate2).1 =
      [Output.markdown "---", Output.markdown txt] := by
  have h1 : (runApp (some k) true (some bytes) vibe decode
      (fun _ => Except.error msg)).1 = [Output.error ("Sistem Error: " ++ msg)] := by
    simp [runApp, runExecute, hdec]
  refine ⟨h1, ⟨"Sistem Error: ", rfl⟩, ?_, ?_⟩
  · intro t ht
    rw [h1] at ht
    simp at ht
  · simp [runApp, runExecute, hdec, hgen2]

/-- C4 witness: concrete run where the client raises "quota exceeded". -/
theorem c4_witness :
    (runApp (some "key") true (some [0]) "Industrial Luxury"
        (fun b => Except.ok (PILImage.mk b))
        (fun _ => Except.error "quota exceeded")).1 =
      [Output.error ("Sistem Error: " ++ "quota exceeded")] :=
  (c4_remote_failure_handled "key" [0] "Industrial Luxury" "quota exceeded" "OK"
    (PILImage.mk [0]) (fun b => Except.ok (PILImage.mk b))
    (fun _ => Except.ok "OK") rfl rfl).1

/-- C5 counterexample: a concrete run issues exactly one request, and that
request carries no generation parameters at all — its model configuration has
no generation config (no temperature, nucleus/top-p, top-k, maximum output
token count, or output format is ever set by the code). -/
theorem c5_counterexample :
    (runApp (some "key") true (some [7]) "Industrial Luxury"
        (fun b => Except.ok (PILImage.mk b)) (fun _ => Except.ok "OK")).2 =
      [mkRequest "Industrial Luxury" (PILImage.mk [7])] ∧
    hasFixedGenerationParams (mkRequest "Industrial Luxury" (PILImage.mk [7])) = false :=
  ⟨rfl, rfl⟩

/-- C5 (amended): every request issued in any run carries the fixed model
name, the fixed behavioral preamble (system instruction), the composed prompt
text and the image — but no explicit generation parameters: the generation
config is absent, so the service defaults apply. -/
theorem c5_amended_request_contents (secret : Option String) (pressed : Bool)
    (file : Option (List Nat)) (vibe : String)
    (decode : List Nat → Except String PILImage)
    (generate : Request → Except String String) :
    ∀ req ∈ (runApp secret pressed file vibe decode generate).2,
      req.config.model_name = "gemini-3-flash-preview" ∧
      req.config.system_instruction = SYSTEM_INSTRUCTION ∧
      req.config.generation_config = none ∧
      ∃ img, req.parts = [Part.text (composePrompt vibe), Part.image img] := by
  intro req hreq
  obtain ⟨img, rfl⟩ :=
    runApp_calls_shape secret pressed file vibe decode generate req hreq
  exact ⟨rfl, rfl, rfl, img, rfl⟩

/-- C5 witness: the request of a concrete run, checked for those contents. -/
theorem c5_amended_witness :
    (mkRequest "Industrial Luxury" (PILImage.mk [7])).config.model_name =
        "gemini-3-flash-preview" ∧
    (mkRequest "Industrial Luxury" (PILImage.mk [7])).config.system_instruction =
        SYSTEM_INSTRUCTION ∧
    (mkRequest "Industrial Luxury" (PILImage.mk [7])).config.generation_config = none ∧
    ∃ img, (mkRequest "Industrial Luxury" (PILImage.mk [7])).parts =
        [Part.text (composePrompt "Industrial Luxury"), Part.image img] :=
  c5_amended_request_contents (some "key") true (some [7]) "Industrial Luxury"
    (fun b => Except.ok (PILImage.mk b)) (fun _ => Except.ok "OK")
    (mkRequest "Industrial Luxury" (PILImage.mk [7])) (List.Mem.head _)

/-- C6: the prompt composer is deterministic — equal target-vibe inputs give
the identical composed prompt — and it is pure interpolation with no
branching: for every input the result is the fixed head literal, the input,
then the fixed tail literal. -/
theorem c6_prompt_deterministic (v1 v2 : String) (h : v1 = v2) :
    composePrompt v1 = composePrompt v2 ∧
    composePrompt v1 =
      "Analyze this image. Target Vibe: " ++ v1 ++ ". Action: Initial Brand Concept." :=
  ⟨by rw [h], rfl⟩

/-- C6 witness: determinism and interpolation shape at a concrete input. -/
theorem c6_witness :
    composePrompt "Industrial Luxury" = composePrompt "Industrial Luxury" ∧
    composePrompt "Industrial Luxury" =
      "Analyze this image. Target Vibe: " ++ "Industrial Luxury" ++
        ". Action: Initial Brand Concept." :=
  c6_prompt_deterministic "Industrial Luxury" "Industrial Luxury" rfl

/-- C7: whenever the remote call succeeds with text `txt`, the page renders
exactly the fixed separator and then `txt` verbatim — no parsing,
truncation or reformatting is applied before display. -/
theorem c7_response_verbatim (k : String) (bytes : List Nat) (vibe txt : String)
    (img : PILImage) (decode : List Nat → Except String PILImage)
    (generate : Request → Except String String)
    (hdec : decode bytes = Except.ok img)
    (hgen : generate (mkRequest vibe img) = Except.ok txt) :
    (runApp (some k) true (some bytes) vibe decode generate).1 =
      [Output.markdown "---", Output.markdown txt] := by
  simp [runApp, runExecute, hdec, hgen]

/-- C7 witness: a concrete successful run renders the response verbatim. -/
theorem c7_witness :
    (runApp (some "key") true (some [3]) "Industrial Luxury"
        (fun b => Except.ok (PILImage.mk b))
        (fun _ => Except.ok "## Spatial Analysis")).1 =
      [Output.markdown "---", Output.markdown "## Spatial Analysis"] :=
  c7_response_verbatim "key" [3] "Industrial Luxury" "## Spatial Analysis"
    (PILImage.mk [3]) (fun b => Except.ok (PILImage.mk b))
    (fun _ => Except.ok "## Spatial Analysis") rfl rfl

/-- C8: no run ever issues more than one remote call, for every credential,
button state, upload, vibe text, decoder and client — in particular no retry
is performed on failure. -/
theorem c8_at_most_one_call (secret : Option String) (pressed : Bool)
    (file : Option (List Nat)) (vibe : String)
    (decode : List Nat → Except String PILImage)
    (generate : Request → Except String String) :
    (runApp secret pressed file vibe decode generate).2.length ≤ 1 := by
  unfold runApp runExecute
  repeat' split
  all_goals simp

/-- C9: an empty target-vibe does not block the call — with an image uploaded
the run issues exactly one request, with the empty string interpolated into
the prompt; "Industrial Luxury" is only the default value of the text field,
and no non-emptiness check exists. -/
theorem c9_empty_vibe_not_blocked (k : String) (bytes : List Nat)
    (img : PILImage) (decode : List Nat → Except String PILImage)
    (generate : Request → Except String String)
    (hdec : decode bytes = Except.ok img) :
    (runApp (some k) true (some bytes) "" decode generate).2 = [mkRequest "" img] ∧
    composePrompt "" = "Analyze this image. Target Vibe: . Action: Initial Brand Concept." ∧
    target_vibe_default = "Industrial Luxury" := by
  refine ⟨?_, rfl, rfl⟩
  cases hg : generate (mkRequest "" img) with
  | error e => simp [runApp, runExecute, hdec, hg]
  | ok t => simp [runApp, runExecute, hdec, hg]

/-- C9 witness: concrete run with empty target-vibe still issues the call. -/
theorem c9_witness :
    (runApp (some "key") true (some [5]) ""
        (fun b => Except.ok (PILImage.mk b)) (fun _ => Except.ok "OK")).2 =
      [mkRequest "" (PILImage.mk [5])] ∧
    composePrompt "" = "Analyze this image. Target Vibe: . Action: Initial Brand Concept." ∧
    target_vibe_default = "Industrial Luxury" :=
  c9_empty_vibe_not_blocked "key" [5] (PILImage.mk [5])
    (fun b => Except.ok (PILImage.mk b)) (fun _ => Except.ok "OK") rfl

/-- C10: when the uploaded bytes fail to decode as an image, no remote call
is issued and the failure is rendered through the generic "Sistem Error"
banner carrying the decode message — never through a warning banner. -/
theorem c10_decode_failure_generic_banner (k : String) (bytes : List Nat)
    (vibe msg : String) (decode : List Nat → Except String PILImage)
    (generate : Request → Except String String)
    (hdec : decode bytes = Except.error msg) :
    runApp (some k) true (some bytes) vibe decode generate =
      ([Output.error ("Sistem Error: " ++ msg)], []) ∧
    ∀ w, Output.warning w ∉ (runApp (some k) true (some bytes) vibe decode generate).1 := by
  have h : runApp (some k) true (some bytes) vibe decode generate =
      ([Output.error ("Sistem Error: " ++ msg)], []) := by
    simp [runApp, runExecute, hdec]
  refine ⟨h, ?_⟩
  intro w hw
  rw [h] at hw
  simp at hw

/-- C10 witness: a concrete run whose decoder raises a decode error. -/
theorem c10_witness :
    runApp (some "key") true (some [9]) "Industrial Luxury"
        (fun _ => Except.error "cannot identify image file")
        (fun _ => Except.ok "OK") =
      ([Output.error ("Sistem Error: " ++ "cannot identify image file")], []) :=
  (c10_decode_failure_generic_banner "key" [9] "Industrial Luxury"
    "cannot identify image file"
    (fun _ => Except.error "cannot identify image file")
    (fun _ => Except.ok "OK") rfl).1

end OmniVibe
